import Mathlib

/-!
Runtime option table of `mono/utils/options-def.h`.

A shallow embedding of the template header `options-def.h`: the option
declarations in file order, each with the preprocessor conditionals that
enclose it, the four `DEFINE_*` wrappers that turn a declaration into the six
arguments of `DEFINE_OPTION_FULL` / `DEFINE_OPTION_READONLY`, and the table that
is active under a build configuration.
-/

namespace MonoOptions

/-! ## Build configuration -/

/-- The two preprocessor symbols the header tests.  `HOST_BROWSER` is tested
with `#if` (true when defined to a non-zero value), `DISABLE_THREADS` with
`#ifdef` (true when defined). -/
structure BuildConfig where
  HOST_BROWSER : Bool
  DISABLE_THREADS : Bool
  deriving DecidableEq, Repr

/-- One enclosing preprocessor branch of a declaration. -/
inductive Guard where
  /-- inside `#if HOST_BROWSER` (line 64) -/
  | ifHostBrowser
  /-- inside the `#ifdef DISABLE_THREADS` branch (line 68) -/
  | ifdefDisableThreads
  /-- inside the `#else` branch of `#ifdef DISABLE_THREADS` (line 75) -/
  | elseDisableThreads
  deriving DecidableEq, Repr

/-- Whether a preprocessor branch is taken under a build configuration. -/
def Guard.holds (cfg : BuildConfig) : Guard → Bool
  | .ifHostBrowser => cfg.HOST_BROWSER
  | .ifdefDisableThreads => cfg.DISABLE_THREADS
  | .elseDisableThreads => !cfg.DISABLE_THREADS

/-! ## Declarations -/

/-- The `flag_type` argument: the option kind. -/
inductive MonoOptionType where
  | MONO_OPTION_BOOL
  | MONO_OPTION_BOOL_READONLY
  | MONO_OPTION_INT
  | MONO_OPTION_STRING
  deriving DecidableEq, Repr

/-- The `ctype` argument: the C storage type (`char_ptr` stands for `char*`). -/
inductive CType where
  | gboolean
  | int
  | char_ptr
  deriving DecidableEq, Repr

/-- The `def_value` argument as it is written in the header: a C constant
expression. -/
inductive DefValue where
  | TRUE
  | FALSE
  | NULL
  | lit (n : Nat)
  | mul (a b : DefValue)
  deriving DecidableEq, Repr

/-- The four wrappers of lines 39-42. -/
inductive DefineKind where
  | DEFINE_BOOL
  | DEFINE_BOOL_READONLY
  | DEFINE_INT
  | DEFINE_STRING
  deriving DecidableEq, Repr

/-- One declaration line `DEFINE_X(name, cmd_name, def_value, comment)`. -/
structure OptionDecl where
  define : DefineKind
  name : String
  cmd_name : String
  def_value : DefValue
  comment : String
  deriving DecidableEq, Repr

/-- The macro the including file must supply, and the optional second one. -/
inductive OptionEmitter where
  | DEFINE_OPTION_FULL
  | DEFINE_OPTION_READONLY
  deriving DecidableEq, Repr

/-- The six arguments
`(flag_type, ctype, c_name, cmd_name, def_value, comment)` handed to
`DEFINE_OPTION_FULL` or `DEFINE_OPTION_READONLY`. -/
structure OptionDescriptor where
  flag_type : MonoOptionType
  ctype : CType
  c_name : String
  cmd_name : String
  def_value : DefValue
  comment : String
  deriving DecidableEq, Repr

/-- Which macro a wrapper invokes (lines 39-42): only `DEFINE_BOOL_READONLY`
goes through `DEFINE_OPTION_READONLY`. -/
def DefineKind.emitter : DefineKind → OptionEmitter
  | .DEFINE_BOOL => .DEFINE_OPTION_FULL
  | .DEFINE_BOOL_READONLY => .DEFINE_OPTION_READONLY
  | .DEFINE_INT => .DEFINE_OPTION_FULL
  | .DEFINE_STRING => .DEFINE_OPTION_FULL

/-- Expansion of the wrappers of lines 39-42 into the six arguments. -/
def expand (d : OptionDecl) : OptionDescriptor :=
  match d.define with
  | .DEFINE_BOOL =>
      { flag_type := .MONO_OPTION_BOOL, ctype := .gboolean, c_name := d.name,
        cmd_name := d.cmd_name, def_value := d.def_value, comment := d.comment }
  | .DEFINE_BOOL_READONLY =>
      { flag_type := .MONO_OPTION_BOOL_READONLY, ctype := .gboolean, c_name := d.name,
        cmd_name := d.cmd_name, def_value := d.def_value, comment := d.comment }
  | .DEFINE_INT =>
      { flag_type := .MONO_OPTION_INT, ctype := .int, c_name := d.name,
        cmd_name := d.cmd_name, def_value := d.def_value, comment := d.comment }
  | .DEFINE_STRING =>
      { flag_type := .MONO_OPTION_STRING, ctype := .char_ptr, c_name := d.name,
        cmd_name := d.cmd_name, def_value := d.def_value, comment := d.comment }

/-- The storage type the header's own documentation gives for each option
type (lines 14-17: `BOOL - gboolean`, `INT - int`, `STRING - char*`). -/
def documentedCType : MonoOptionType → CType
  | .MONO_OPTION_BOOL => .gboolean
  | .MONO_OPTION_BOOL_READONLY => .gboolean
  | .MONO_OPTION_INT => .int
  | .MONO_OPTION_STRING => .char_ptr

/-! ## The list of runtime flags (lines 60-127) -/

/-- The declarations of the header in file order, each with the stack of
preprocessor branches it sits in (outermost first).  The commented-out examples
of lines 48-58 are not code and do not appear. -/
def optionList : List (List Guard × OptionDecl) :=
  [ ([], ⟨.DEFINE_BOOL, "wasm_exceptions", "wasm-exceptions", .FALSE,
      "Enable codegen for WASM exceptions"⟩),
    ([], ⟨.DEFINE_BOOL, "wasm_gc_safepoints", "wasm-gc-safepoints", .FALSE,
      "Use GC safepoints on WASM"⟩),
    ([], ⟨.DEFINE_BOOL, "aot_lazy_assembly_load", "aot-lazy-assembly-load", .FALSE,
      "Load assemblies referenced by AOT images lazily"⟩),
    ([.ifHostBrowser, .ifdefDisableThreads],
      ⟨.DEFINE_BOOL, "jiterpreter_traces_enabled", "jiterpreter-traces-enabled", .FALSE,
       "JIT interpreter opcode traces into WASM"⟩),
    ([.ifHostBrowser, .ifdefDisableThreads],
      ⟨.DEFINE_BOOL, "jiterpreter_interp_entry_enabled", "jiterpreter-interp-entry-enabled",
       .TRUE, "JIT specialized WASM interp_entry wrappers"⟩),
    ([.ifHostBrowser, .ifdefDisableThreads],
      ⟨.DEFINE_BOOL, "jiterpreter_jit_call_enabled", "jiterpreter-jit-call-enabled", .TRUE,
       "JIT specialized WASM do_jit_call trampolines"⟩),
    ([.ifHostBrowser, .elseDisableThreads],
      ⟨.DEFINE_BOOL_READONLY, "jiterpreter_traces_enabled", "jiterpreter-traces-enabled",
       .FALSE, "JIT interpreter opcode traces into WASM"⟩),
    ([.ifHostBrowser, .elseDisableThreads],
      ⟨.DEFINE_BOOL_READONLY, "jiterpreter_interp_entry_enabled",
       "jiterpreter-interp-entry-enabled", .FALSE,
       "JIT specialized WASM interp_entry wrappers"⟩),
    ([.ifHostBrowser, .elseDisableThreads],
      ⟨.DEFINE_BOOL_READONLY, "jiterpreter_jit_call_enabled", "jiterpreter-jit-call-enabled",
       .FALSE, "JIT specialized WASM do_jit_call trampolines"⟩),
    ([.ifHostBrowser],
      ⟨.DEFINE_BOOL, "jiterpreter_wasm_eh_enabled", "jiterpreter-wasm-eh-enabled", .TRUE,
       "Enable the use of WASM Exception Handling in JITted code"⟩),
    ([.ifHostBrowser],
      ⟨.DEFINE_BOOL, "jiterpreter_backward_branch_entries_enabled",
       "jiterpreter-backward-branch-entries-enabled", .TRUE,
       "Insert trace entry points at backward branch targets"⟩),
    ([.ifHostBrowser],
      ⟨.DEFINE_BOOL, "jiterpreter_call_resume_enabled", "jiterpreter-call-resume-enabled",
       .TRUE, "Insert trace entry points after function calls"⟩),
    ([.ifHostBrowser],
      ⟨.DEFINE_BOOL, "jiterpreter_disable_heuristic", "jiterpreter-disable-heuristic", .FALSE,
       "Always insert trace entry points for more accurate statistics"⟩),
    ([.ifHostBrowser],
      ⟨.DEFINE_BOOL, "jiterpreter_stats_enabled", "jiterpreter-stats-enabled", .TRUE,
       "Automatically print jiterpreter statistics"⟩),
    ([.ifHostBrowser],
      ⟨.DEFINE_BOOL, "jiterpreter_estimate_heat", "jiterpreter-estimate-heat", .FALSE,
       "Maintain accurate hit count for all trace entry points"⟩),
    ([.ifHostBrowser],
      ⟨.DEFINE_BOOL, "jiterpreter_count_bailouts", "jiterpreter-count-bailouts", .FALSE,
       "Maintain accurate count of all trace bailouts based on cause"⟩),
    ([.ifHostBrowser],
      ⟨.DEFINE_BOOL, "jiterpreter_dump_traces", "jiterpreter-dump-traces", .FALSE,
       "Dump the wasm blob for all compiled traces to the console"⟩),
    ([.ifHostBrowser],
      ⟨.DEFINE_BOOL, "jiterpreter_use_constants", "jiterpreter-use-constants", .FALSE,
       "Use runtime imports for pointer constants"⟩),
    ([.ifHostBrowser],
      ⟨.DEFINE_BOOL, "jiterpreter_direct_jit_call", "jiterpreter-direct-jit-calls", .TRUE,
       "Bypass gsharedvt wrappers when compiling JIT call wrappers"⟩),
    ([.ifHostBrowser],
      ⟨.DEFINE_INT, "jiterpreter_minimum_trace_length", "jiterpreter-minimum-trace-length",
       .lit 10, "Reject traces shorter than this number of meaningful opcodes"⟩),
    ([.ifHostBrowser],
      ⟨.DEFINE_INT, "jiterpreter_minimum_trace_hit_count",
       "jiterpreter-minimum-trace-hit-count", .lit 5000,
       "JIT trace entry points once they are hit this many times"⟩),
    ([.ifHostBrowser],
      ⟨.DEFINE_INT, "jiterpreter_jit_call_trampoline_hit_count",
       "jiterpreter-jit-call-hit-count", .lit 1000,
       "Queue specialized do_jit_call trampoline for JIT after this many hits"⟩),
    ([.ifHostBrowser],
      ⟨.DEFINE_INT, "jiterpreter_jit_call_queue_flush_threshold",
       "jiterpreter-jit-call-queue-flush-threshold", .lit 5000,
       "Flush the do_jit_call JIT queue after an unJITted call site has this many hits"⟩),
    ([.ifHostBrowser],
      ⟨.DEFINE_INT, "jiterpreter_interp_entry_trampoline_hit_count",
       "jiterpreter-interp-entry-hit-count", .lit 1000,
       "Queue specialized interp_entry wrapper for JIT after this many hits"⟩),
    ([.ifHostBrowser],
      ⟨.DEFINE_INT, "jiterpreter_interp_entry_queue_flush_threshold",
       "jiterpreter-interp-entry-queue-flush-threshold", .lit 3000,
       "Flush the interp_entry JIT queue after an unJITted call site has this many hits"⟩),
    ([.ifHostBrowser],
      ⟨.DEFINE_INT, "jiterpreter_wasm_bytes_limit", "jiterpreter-wasm-bytes-limit",
       .mul (.mul (.lit 6) (.lit 1024)) (.lit 1024),
       "Disable jiterpreter code generation once this many bytes of WASM have been generated"⟩) ]

/-- The declarations the preprocessor keeps under `cfg`, in file order: those
all of whose enclosing branches are taken. -/
def activeDecls (cfg : BuildConfig) : List OptionDecl :=
  (optionList.filter (fun e => e.1.all (Guard.holds cfg))).map Prod.snd

/-- The active option table: the six-argument descriptor of every active
declaration, in declaration order. -/
def optionTable (cfg : BuildConfig) : List OptionDescriptor :=
  (activeDecls cfg).map expand

/-! ## Default values -/

/-- Smallest value of the C type `int` (32 bits). -/
def INT_MIN : Int := -2 ^ 31

/-- Largest value of the C type `int` (32 bits). -/
def INT_MAX : Int := 2 ^ 31 - 1

/-- Reduction of an integer to the 32-bit two's complement range. -/
def wrap32 (v : Int) : Int := (v + 2 ^ 31) % 2 ^ 32 - 2 ^ 31

/-- Mathematical value of an integer constant expression (a decimal literal
or a product); the spellings `TRUE`, `FALSE` and `NULL` are not integer
literals. -/
def DefValue.intValue : DefValue → Option Int
  | .lit n => some (n : Int)
  | .mul a b =>
      match a.intValue, b.intValue with
      | some x, some y => some (x * y)
      | _, _ => none
  | .TRUE => none
  | .FALSE => none
  | .NULL => none

/-- Value of an integer constant expression when every literal and every
product is reduced modulo `2 ^ 32` to the range of `int`. -/
def DefValue.int32Value : DefValue → Option Int
  | .lit n => some (wrap32 (n : Int))
  | .mul a b =>
      match a.int32Value, b.int32Value with
      | some x, some y => some (wrap32 (x * y))
      | _, _ => none
  | .TRUE => none
  | .FALSE => none
  | .NULL => none

/-! ## Spelling of command-line names -/

/-- Whether the characters of `p` are the first characters of `s`. -/
def beginsWith (p s : String) : Bool :=
  p.toList.isPrefixOf s.toList

/-- Whether two hyphens stand next to each other. -/
def hasAdjacentHyphens : List Char → Bool
  | [] => false
  | [_] => false
  | a :: b :: rest => (a == '-' && b == '-') || hasAdjacentHyphens (b :: rest)

/-- The three jiterpreter switches that the header declares once per
threading mode (lines 70-74 and lines 77-81). -/
def jiterpreterSwitches : List String :=
  ["jiterpreter_traces_enabled", "jiterpreter_interp_entry_enabled",
   "jiterpreter_jit_call_enabled"]

/-! ## Option store and command-line parser

The header is a template: the file that includes it and supplies
`DEFINE_OPTION_FULL` (the generated variables and the argument parser) is not
part of the sources at hand.  The definitions of this section follow the
specification text instead.
-/

/-- Modelled from the spec: a typed current value of an option (`bool` for
Bool/BoolReadonly, signed integer for Int, nullable owned text for String, where
`none` means unset).  The including file that declares the storage is missing. -/
inductive OptionValue where
  | bool (b : Bool)
  | int (v : Int)
  | text (s : Option String)
  deriving DecidableEq, Repr

/-- Modelled from the spec: the typed literal `default_value` of a
descriptor, `none` when the written default does not match the kind.  An `int`
default is the value the 32-bit variable holds.  The including file that
initialises the storage is missing. -/
def defaultValue (d : OptionDescriptor) : Option OptionValue :=
  match d.flag_type, d.def_value with
  | .MONO_OPTION_BOOL, .TRUE => some (.bool true)
  | .MONO_OPTION_BOOL, .FALSE => some (.bool false)
  | .MONO_OPTION_BOOL_READONLY, .TRUE => some (.bool true)
  | .MONO_OPTION_BOOL_READONLY, .FALSE => some (.bool false)
  | .MONO_OPTION_INT, e => e.int32Value.map OptionValue.int
  | .MONO_OPTION_STRING, .NULL => some (.text none)
  | _, _ => none

/-- Modelled from the spec: the name of the storage generated for an option,
`mono_opt_<flag name>` (header lines 11-12); the generating file is missing. -/
def storageName (d : OptionDescriptor) : String :=
  "mono_opt_" ++ d.c_name

/-- Modelled from the spec: the OptionStore, the current values of the
non-readonly options keyed by name.  The including file is missing. -/
abbrev OptionStore := List (String × OptionValue)

/-- Modelled from the spec: the store at process start, every non-readonly
descriptor's slot initialised from its `default_value`, before any argument is
parsed.  The including file is missing. -/
def OptionStore.init (table : List OptionDescriptor) : OptionStore :=
  table.filterMap (fun d =>
    if d.flag_type = .MONO_OPTION_BOOL_READONLY then none
    else (defaultValue d).map (fun v => (storageName d, v)))

/-- Modelled from the spec: current value of the slot of that name (the
first one, should several carry the name).  The including file is missing. -/
def OptionStore.get (store : OptionStore) (key : String) : Option OptionValue :=
  match store with
  | [] => none
  | (k, v) :: rest => if k = key then some v else OptionStore.get rest key

/-- Modelled from the spec: overwrite the slot of that name; a name without a
slot changes nothing.  The including file is missing. -/
def OptionStore.set (store : OptionStore) (key : String) (v : OptionValue) : OptionStore :=
  store.map (fun e => if e.1 = key then (e.1, v) else e)

/-- Modelled from the spec: the consumer read interface, a typed accessor by
name: a read-only option returns its literal, a mutable option the live store
value, and a name that is not active in this build has no accessor.  The
including file is missing. -/
def readOption (table : List OptionDescriptor) (store : OptionStore) (c_name : String) :
    Option OptionValue :=
  match table.find? (fun d => d.c_name = c_name) with
  | none => none
  | some d =>
      if d.flag_type = .MONO_OPTION_BOOL_READONLY then defaultValue d
      else store.get (storageName d)

/-- Modelled from the spec: the two build profiles of a read-only entry,
*frozen* (the parser never sees the option) and *runtime-fixed* (the parser
sees it and refuses to alter it).  The parser source is missing. -/
inductive ReadonlyProfile where
  | frozen
  | runtimeFixed
  deriving DecidableEq, Repr

/-- Modelled from the spec: the two propagation modes of parse errors.  The
parser source is missing. -/
inductive ErrorMode where
  | failFast
  | collectAll
  deriving DecidableEq, Repr

/-- Modelled from the spec: the parse errors of the error taxonomy (the
construction-time `DuplicateCommandLineName` is not a parse error).  The parser
source is missing. -/
inductive ParseError where
  | UnrecognizedFlag (token : String)
  | TypeMismatch (flag : String) (expected : MonoOptionType)
  | MalformedValue (flag : String) (raw : String) (target : MonoOptionType)
  | MissingValue (flag : String)
  | ReadonlyViolation (flag : String)
  deriving DecidableEq, Repr

/-- Modelled from the spec: the descriptors the parser consults: all of them
in the runtime-fixed profile, the non-readonly ones in the frozen profile.  The
parser source is missing. -/
def parserTable (profile : ReadonlyProfile) (table : List OptionDescriptor) :
    List OptionDescriptor :=
  match profile with
  | .runtimeFixed => table
  | .frozen => table.filter (fun d => d.flag_type ≠ .MONO_OPTION_BOOL_READONLY)

/-- Modelled from the spec: the descriptor a `<cmd>` resolves to, by its
command-line name.  The parser source is missing. -/
def resolve (table : List OptionDescriptor) (cmd : List Char) : Option OptionDescriptor :=
  table.find? (fun d => d.cmd_name.toList = cmd)

/-- Modelled from the spec: split the text after `--` at its first `=` into
`<cmd>` and, when there is an `=`, `<value>`.  The parser source is missing. -/
def splitAtEq : List Char → List Char × Option (List Char)
  | [] => ([], none)
  | c :: rest =>
      if c = '=' then ([], some rest)
      else ((c :: (splitAtEq rest).1), (splitAtEq rest).2)

/-- Modelled from the spec: value of a run of decimal digits.  The parser
source is missing. -/
def digitsValue (ds : List Char) : Nat :=
  ds.foldl (fun acc c => 10 * acc + (c.toNat - '0'.toNat)) 0

/-- Modelled from the spec: Int coercion: the text must be an optional `-`
and at least one decimal digit, nothing is trimmed, and the value must lie in
the native `int` range.  The parser source is missing. -/
def parseIntText (cs : List Char) : Option Int :=
  match cs with
  | '-' :: ds =>
      if ds ≠ [] ∧ ds.all Char.isDigit = true ∧ INT_MIN ≤ -(digitsValue ds : Int) then
        some (-(digitsValue ds : Int))
      else none
  | ds =>
      if ds ≠ [] ∧ ds.all Char.isDigit = true ∧ (digitsValue ds : Int) ≤ INT_MAX then
        some (digitsValue ds : Int)
      else none

/-- Modelled from the spec: whether a token is itself a recognized flag
spelling: `--<cmd>`, `--<cmd>=...` or `--no-<cmd>` for a `<cmd>` the parser can
resolve.  The parser source is missing. -/
def isRecognizedFlag (table : List OptionDescriptor) (tok : String) : Bool :=
  match tok.toList with
  | '-' :: '-' :: body =>
      (resolve table (splitAtEq body).1).isSome ||
      (match (splitAtEq body).1 with
       | 'n' :: 'o' :: '-' :: cmd => (resolve table cmd).isSome
       | _ => false)
  | _ => false

/-- Modelled from the spec: what one token (with a look at the next) does.
The parser source is missing. -/
inductive TokenOutcome where
  /-- not a flag: left for the caller -/
  | positional
  /-- one option was set; `tookNext` when the next token was its value -/
  | applied (store : OptionStore) (tookNext : Bool)
  /-- nothing was set; `tookNext` when the next token was the rejected value -/
  | failed (err : ParseError) (tookNext : Bool)
  deriving DecidableEq, Repr

/-- Modelled from the spec: coerce `<value>` to the kind of the resolved
option and set it: Int text must parse, String text is taken verbatim, a value
given to a boolean is a type mismatch, and a read-only option is refused.  The
parser source is missing. -/
def applyValue (store : OptionStore) (d : OptionDescriptor) (value : List Char)
    (tookNext : Bool) : TokenOutcome :=
  match d.flag_type with
  | .MONO_OPTION_INT =>
      match parseIntText value with
      | some v => .applied (store.set (storageName d) (.int v)) tookNext
      | none => .failed (.MalformedValue d.cmd_name (String.mk value) .MONO_OPTION_INT) tookNext
  | .MONO_OPTION_STRING =>
      .applied (store.set (storageName d) (.text (some (String.mk value)))) tookNext
  | .MONO_OPTION_BOOL => .failed (.TypeMismatch d.cmd_name .MONO_OPTION_BOOL) tookNext
  | .MONO_OPTION_BOOL_READONLY => .failed (.ReadonlyViolation d.cmd_name) tookNext

/-- Modelled from the spec: `--<cmd>` without `=` for a resolved option: a
Bool is set to `true`, a read-only option is refused, an Int or String takes the
next token as its value unless there is none or it is itself a recognized flag.
The parser source is missing. -/
def applyBare (table : List OptionDescriptor) (store : OptionStore) (d : OptionDescriptor)
    (next : Option String) : TokenOutcome :=
  match d.flag_type with
  | .MONO_OPTION_BOOL => .applied (store.set (storageName d) (.bool true)) false
  | .MONO_OPTION_BOOL_READONLY => .failed (.ReadonlyViolation d.cmd_name) false
  | _ =>
      match next with
      | none => .failed (.MissingValue d.cmd_name) false
      | some n =>
          if isRecognizedFlag table n then .failed (.MissingValue d.cmd_name) false
          else applyValue store d n.toList true

/-- Modelled from the spec: `--no-<cmd>` for a resolved option: a Bool is set
to `false`, a read-only option is refused, any other kind is a type mismatch.
The parser source is missing. -/
def applyNegated (store : OptionStore) (d : OptionDescriptor) : TokenOutcome :=
  match d.flag_type with
  | .MONO_OPTION_BOOL => .applied (store.set (storageName d) (.bool false)) false
  | .MONO_OPTION_BOOL_READONLY => .failed (.ReadonlyViolation d.cmd_name) false
  | _ => .failed (.TypeMismatch d.cmd_name .MONO_OPTION_BOOL) false

/-- Modelled from the spec: the grammar of one token.  A token not starting
with `--` is positional.  The `=`-joined form is tried first; otherwise `<cmd>`
is resolved as it stands, then as the negation `no-<cmd>`; a `<cmd>` that
resolves to nothing is an unrecognized flag.  `table` is the table the parser
consults.  The parser source is missing. -/
def parseToken (table : List OptionDescriptor) (store : OptionStore) (tok : String)
    (next : Option String) : TokenOutcome :=
  match tok.toList with
  | '-' :: '-' :: body =>
      match splitAtEq body with
      | (cmd, some value) =>
          match resolve table cmd with
          | some d => applyValue store d value false
          | none => .failed (.UnrecognizedFlag tok) false
      | (cmd, none) =>
          match resolve table cmd with
          | some d => applyBare table store d next
          | none =>
              match cmd with
              | 'n' :: 'o' :: '-' :: rest =>
                  match resolve table rest with
                  | some d => applyNegated store d
                  | none => .failed (.UnrecognizedFlag tok) false
              | _ => .failed (.UnrecognizedFlag tok) false
  | _ => .positional

/-- Modelled from the spec: what the parser returns: the store after all
applied mutations, the tokens it did not consume as flags in their original
order, and the errors.  The parser source is missing. -/
structure ParseResult where
  store : OptionStore
  unconsumed : List String
  errors : List ParseError
  deriving DecidableEq, Repr

/-- Modelled from the spec: the single left-to-right pass.  `skip` is set
when the token at the head was already consumed as the value of the flag before
it.  A failing token mutates nothing; earlier mutations stay; fail-fast stops at
the first error, collect-all goes on.  The parser source is missing. -/
def parseFrom (table : List OptionDescriptor) (mode : ErrorMode) :
    Bool → OptionStore → List String → ParseResult
  | _, store, [] => ⟨store, [], []⟩
  | true, store, _ :: rest => parseFrom table mode false store rest
  | false, store, tok :: rest =>
      match parseToken table store tok rest.head? with
      | .positional =>
          ⟨(parseFrom table mode false store rest).store,
           tok :: (parseFrom table mode false store rest).unconsumed,
           (parseFrom table mode false store rest).errors⟩
      | .applied store1 tookNext => parseFrom table mode tookNext store1 rest
      | .failed err tookNext =>
          match mode with
          | .failFast => ⟨store, [], [err]⟩
          | .collectAll =>
              ⟨(parseFrom table mode tookNext store rest).store,
               (parseFrom table mode tookNext store rest).unconsumed,
               err :: (parseFrom table mode tookNext store rest).errors⟩

/-- Modelled from the spec: parse the arguments of a process against the
option table of its build, starting from the freshly initialised store.  The
parser source is missing. -/
def parseOptions (table : List OptionDescriptor) (profile : ReadonlyProfile)
    (mode : ErrorMode) (args : List String) : ParseResult :=
  parseFrom (parserTable profile table) mode false (OptionStore.init table) args

/-- Modelled from the spec: whether a token names the option on the command
line: `--<cmd>`, `--no-<cmd>` or `--<cmd>=<value>`.  The parser source is
missing. -/
def mentions (d : OptionDescriptor) (tok : String) : Bool :=
  match tok.toList with
  | '-' :: '-' :: body =>
      decide ((splitAtEq body).1 = d.cmd_name.toList) ||
      decide ((splitAtEq body) = ('n' :: 'o' :: '-' :: d.cmd_name.toList, none))
  | _ => false

/-! ## Inclusion of the template header (lines 25-36) -/

/-- One macro invocation that is left once the wrappers of lines 39-42 are
expanded: the macro invoked and its six arguments. -/
structure Invocation where
  emitter : OptionEmitter
  args : OptionDescriptor
  deriving DecidableEq, Repr

/-- Expansion of one declaration line by its wrapper (lines 39-42). -/
def expandWrapper (d : OptionDecl) : Invocation :=
  ⟨d.define.emitter, expand d⟩

/-- The fallback of lines 34-36: when the including file has not defined
`DEFINE_OPTION_READONLY`, the header defines it to hand its six arguments to
`DEFINE_OPTION_FULL`. -/
def applyFallback (readonlyDefined : Bool) (i : Invocation) : Invocation :=
  match readonlyDefined, i.emitter with
  | false, .DEFINE_OPTION_READONLY => ⟨.DEFINE_OPTION_FULL, i.args⟩
  | _, _ => i

/-- The invocations of the including file's macros that the header amounts to
under a build configuration, in declaration order. -/
def invocations (readonlyDefined : Bool) (cfg : BuildConfig) : List Invocation :=
  (activeDecls cfg).map (fun d => applyFallback readonlyDefined (expandWrapper d))

/-- The macros the including file has defined when it includes the header;
each one turns six arguments into what it generates. -/
structure IncludingFile (α : Type) where
  DEFINE_OPTION_FULL : Option (OptionDescriptor → α)
  DEFINE_OPTION_READONLY : Option (OptionDescriptor → α)

/-- Preprocessing of the header for an including file: `#error` (`none`) when
`DEFINE_OPTION_FULL` is not defined (lines 31-33), otherwise what the macros
generate for every invocation, in declaration order. -/
def includeHeader {α : Type} (f : IncludingFile α) (cfg : BuildConfig) : Option (List α) :=
  match f.DEFINE_OPTION_FULL with
  | none => none
  | some full =>
      some ((invocations f.DEFINE_OPTION_READONLY.isSome cfg).map (fun i =>
        match i.emitter, f.DEFINE_OPTION_READONLY with
        | .DEFINE_OPTION_READONLY, some ro => ro i.args
        | _, _ => full i.args))

/-! ## Auxiliary lemmas -/

/-- The integer defaults of a table, as checked by evaluation. -/
theorem int_default_of_check (e : DefValue)
    (h : (match e.intValue with
          | some v => decide (INT_MIN ≤ v ∧ v ≤ INT_MAX) && (e.int32Value == some v)
          | none => false) = true) :
    ∃ v : Int, e.intValue = some v ∧ INT_MIN ≤ v ∧ v ≤ INT_MAX ∧ e.int32Value = some v := by
  cases hv : e.intValue with
  | none => simp [hv] at h
  | some v =>
    simp only [hv, Bool.and_eq_true, decide_eq_true_eq, beq_iff_eq] at h
    exact ⟨v, rfl, h.1.1, h.1.2, h.2⟩

/-- Reading a store whose first slot is `(k0, v0)`. -/
theorem OptionStore.get_cons (k0 : String) (v0 : OptionValue) (rest : OptionStore)
    (key : String) :
    OptionStore.get ((k0, v0) :: rest) key =
      if k0 = key then some v0 else OptionStore.get rest key := rfl

/-- Writing to a store whose first slot is `(k0, v0)`. -/
theorem OptionStore.set_cons (k0 : String) (v0 : OptionValue) (rest : OptionStore)
    (key : String) (v : OptionValue) :
    OptionStore.set ((k0, v0) :: rest) key v =
      (if k0 = key then (k0, v) else (k0, v0)) :: OptionStore.set rest key v := rfl

/-- Setting one slot leaves every slot of another name as it was. -/
theorem OptionStore.get_set_ne (s : OptionStore) (key k : String) (v : OptionValue)
    (h : key ≠ k) : OptionStore.get (OptionStore.set s key v) k = OptionStore.get s k := by
  induction s with
  | nil => rfl
  | cons e rest ih =>
    obtain ⟨a, b⟩ := e
    rw [OptionStore.set_cons, OptionStore.get_cons]
    by_cases ha : a = key
    · rw [if_pos ha, OptionStore.get_cons, ih]
      subst ha
      simp [h]
    · rw [if_neg ha, OptionStore.get_cons, ih]

/-- The storage name determines the internal name. -/
theorem storageName_injective (a b : OptionDescriptor)
    (h : storageName a = storageName b) : a.c_name = b.c_name := by
  have h2 := congrArg String.data h
  simp only [storageName, String.data_append] at h2
  exact String.ext (List.append_cancel_left h2)

/-- A resolved descriptor is in the table and carries the command-line name. -/
theorem resolve_some (table : List OptionDescriptor) (cmd : List Char) (d : OptionDescriptor)
    (h : resolve table cmd = some d) : d ∈ table ∧ d.cmd_name.toList = cmd := by
  unfold resolve at h
  refine ⟨List.mem_of_find?_eq_some h, ?_⟩
  have := List.find?_some h
  simpa using this

/-- A value only ever lands in the slot of the option it was given to. -/
theorem applyValue_applied (s : OptionStore) (d : OptionDescriptor) (value : List Char)
    (b : Bool) (s1 : OptionStore) (b1 : Bool)
    (h : applyValue s d value b = .applied s1 b1) :
    ∃ v, s1 = OptionStore.set s (storageName d) v := by
  unfold applyValue at h
  split at h
  · split at h
    · injection h with h1 _
      exact ⟨_, h1.symm⟩
    · cases h
  · injection h with h1 _
    exact ⟨_, h1.symm⟩
  · cases h
  · cases h

/-- A bare flag only ever sets the slot of its own option. -/
theorem applyBare_applied (table : List OptionDescriptor) (s : OptionStore)
    (d : OptionDescriptor) (next : Option String) (s1 : OptionStore) (b1 : Bool)
    (h : applyBare table s d next = .applied s1 b1) :
    ∃ v, s1 = OptionStore.set s (storageName d) v := by
  unfold applyBare at h
  split at h
  · injection h with h1 _
    exact ⟨_, h1.symm⟩
  · cases h
  · split at h
    · cases h
    · split at h
      · cases h
      · exact applyValue_applied _ _ _ _ _ _ h

/-- A negated flag only ever sets the slot of its own option. -/
theorem applyNegated_applied (s : OptionStore) (d : OptionDescriptor) (s1 : OptionStore)
    (b1 : Bool) (h : applyNegated s d = .applied s1 b1) :
    ∃ v, s1 = OptionStore.set s (storageName d) v := by
  unfold applyNegated at h
  split at h
  · injection h with h1 _
    exact ⟨_, h1.symm⟩
  · cases h
  · cases h

/-- Text without `=` is its own `<cmd>`. -/
theorem splitAtEq_none (body cmd : List Char) (h : splitAtEq body = (cmd, none)) :
    body = cmd := by
  induction body generalizing cmd with
  | nil =>
    simp only [splitAtEq, Prod.mk.injEq] at h
    exact h.1
  | cons c rest ih =>
    unfold splitAtEq at h
    split at h
    · simp at h
    · simp only [Prod.mk.injEq] at h
      obtain ⟨h1, h2⟩ := h
      have := ih (splitAtEq rest).1 (Prod.ext rfl h2)
      rw [← h1, ← this]

/-- Every mutation made by one token is a write to the slot of an option of
the consulted table that the token names; for a Bool option the token is
exactly `--<cmd>` or `--no-<cmd>`. -/
theorem parseToken_applied (table : List OptionDescriptor) (s : OptionStore) (tok : String)
    (next : Option String) (s1 : OptionStore) (b1 : Bool)
    (h : parseToken table s tok next = .applied s1 b1) :
    ∃ d v, d ∈ table ∧ s1 = OptionStore.set s (storageName d) v ∧ mentions d tok = true ∧
      (d.flag_type = .MONO_OPTION_BOOL →
        tok = "--" ++ d.cmd_name ∨ tok = "--no-" ++ d.cmd_name) := by
  unfold parseToken at h
  split at h
  · rename_i body hb
    split at h
    · rename_i cmd value hs
      split at h
      · rename_i d hr
        obtain ⟨hm, hc⟩ := resolve_some _ _ _ hr
        obtain ⟨v, hv⟩ := applyValue_applied _ _ _ _ _ _ h
        subst hc
        refine ⟨d, v, hm, hv, ?_, ?_⟩
        · unfold mentions
          rw [hb]
          simp [hs]
        · intro hk
          simp [applyValue, hk] at h
      · cases h
    · rename_i cmd hs
      split at h
      · rename_i d hr
        obtain ⟨hm, hc⟩ := resolve_some _ _ _ hr
        obtain ⟨v, hv⟩ := applyBare_applied _ _ _ _ _ _ h
        subst hc
        refine ⟨d, v, hm, hv, ?_, ?_⟩
        · unfold mentions
          rw [hb]
          simp [hs]
        · intro _
          left
          apply String.ext
          have hbody := splitAtEq_none _ _ hs
          show tok.toList = '-' :: '-' :: d.cmd_name.toList
          rw [hb, hbody]
      · split at h
        · rename_i rest
          split at h
          · rename_i d hr
            obtain ⟨hm, hc⟩ := resolve_some _ _ _ hr
            obtain ⟨v, hv⟩ := applyNegated_applied _ _ _ _ h
            subst hc
            refine ⟨d, v, hm, hv, ?_, ?_⟩
            · unfold mentions
              rw [hb]
              simp [hs]
            · intro _
              right
              apply String.ext
              have hbody := splitAtEq_none _ _ hs
              show tok.toList = '-' :: '-' :: 'n' :: 'o' :: '-' :: d.cmd_name.toList
              rw [hb, hbody]
          · cases h
        · cases h
  · cases h

/-- A token that does not address an option leaves its slot alone. -/
theorem parseToken_frame (T P : List OptionDescriptor) (hP : ∀ d ∈ P, d ∈ T)
    (hn : (T.map OptionDescriptor.c_name).Nodup) (o : OptionDescriptor) (ho : o ∈ T)
    (s : OptionStore) (tok : String) (next : Option String) (s1 : OptionStore) (b1 : Bool)
    (hq : ¬ (mentions o tok = true ∧ (o.flag_type = .MONO_OPTION_BOOL →
        tok = "--" ++ o.cmd_name ∨ tok = "--no-" ++ o.cmd_name)))
    (h : parseToken P s tok next = .applied s1 b1) :
    OptionStore.get s1 (storageName o) = OptionStore.get s (storageName o) := by
  obtain ⟨d, v, hd, rfl, hmd, hbd⟩ := parseToken_applied _ _ _ _ _ _ h
  apply OptionStore.get_set_ne
  intro hs
  have hc := storageName_injective _ _ hs
  have hdo : d = o := List.inj_on_of_nodup_map hn (hP d hd) ho hc
  subst hdo
  exact hq ⟨hmd, hbd⟩

/-- Arguments none of which addresses an option leave its slot alone, in
either error mode and whether or not the pass ends in an error. -/
theorem parseFrom_frame (T P : List OptionDescriptor) (hP : ∀ d ∈ P, d ∈ T)
    (hn : (T.map OptionDescriptor.c_name).Nodup) (o : OptionDescriptor) (ho : o ∈ T)
    (mode : ErrorMode) (args : List String)
    (hargs : ∀ tok ∈ args, ¬ (mentions o tok = true ∧ (o.flag_type = .MONO_OPTION_BOOL →
        tok = "--" ++ o.cmd_name ∨ tok = "--no-" ++ o.cmd_name)))
    (skip : Bool) (s : OptionStore) :
    OptionStore.get (parseFrom P mode skip s args).store (storageName o) =
      OptionStore.get s (storageName o) := by
  induction args generalizing skip s with
  | nil => cases skip <;> rfl
  | cons tok rest ih =>
    have hrest : ∀ t ∈ rest, ¬ (mentions o t = true ∧ (o.flag_type = .MONO_OPTION_BOOL →
        t = "--" ++ o.cmd_name ∨ t = "--no-" ++ o.cmd_name)) :=
      fun t ht => hargs t (List.mem_cons_of_mem _ ht)
    cases skip with
    | true =>
      rw [parseFrom]
      exact ih hrest false s
    | false =>
      rw [parseFrom]
      cases hp : parseToken P s tok rest.head? with
      | positional => exact ih hrest false s
      | applied s1 b1 =>
        show OptionStore.get (parseFrom P mode b1 s1 rest).store (storageName o) = _
        rw [ih hrest b1 s1]
        exact parseToken_frame T P hP hn o ho s tok _ s1 b1
          (hargs tok (List.mem_cons_self _ _)) hp
      | failed err b1 =>
        cases mode with
        | failFast => rfl
        | collectAll => exact ih hrest b1 s

/-- The descriptors the parser consults are descriptors of the table. -/
theorem parserTable_subset (profile : ReadonlyProfile) (T : List OptionDescriptor) :
    ∀ d ∈ parserTable profile T, d ∈ T := by
  intro d hd
  cases profile with
  | runtimeFixed => exact hd
  | frozen => exact List.mem_of_mem_filter hd

/-- With distinct names, looking an active option up by name finds that very
descriptor. -/
theorem find_by_c_name (T : List OptionDescriptor)
    (hn : (T.map OptionDescriptor.c_name).Nodup) (o : OptionDescriptor) (ho : o ∈ T) :
    T.find? (fun d => d.c_name = o.c_name) = some o := by
  cases hf : T.find? (fun d => d.c_name = o.c_name) with
  | none =>
    rw [List.find?_eq_none] at hf
    exact absurd (by simp) (hf o ho)
  | some d =>
    have h1 := List.mem_of_find?_eq_some hf
    have h2 := List.find?_some hf
    have h3 : d.c_name = o.c_name := by simpa using h2
    rw [List.inj_on_of_nodup_map hn h1 ho h3]

/-- Whatever the arguments, an option none of them addresses reads after the
pass as it read before it. -/
theorem readOption_frame (T : List OptionDescriptor)
    (hn : (T.map OptionDescriptor.c_name).Nodup) (o : OptionDescriptor) (ho : o ∈ T)
    (profile : ReadonlyProfile) (mode : ErrorMode) (args : List String)
    (hargs : ∀ tok ∈ args, ¬ (mentions o tok = true ∧ (o.flag_type = .MONO_OPTION_BOOL →
        tok = "--" ++ o.cmd_name ∨ tok = "--no-" ++ o.cmd_name))) :
    readOption T (parseOptions T profile mode args).store o.c_name =
      readOption T (OptionStore.init T) o.c_name := by
  unfold readOption
  rw [find_by_c_name T hn o ho]
  show (if o.flag_type = .MONO_OPTION_BOOL_READONLY then defaultValue o
        else OptionStore.get (parseOptions T profile mode args).store (storageName o)) =
       (if o.flag_type = .MONO_OPTION_BOOL_READONLY then defaultValue o
        else OptionStore.get (OptionStore.init T) (storageName o))
  unfold parseOptions
  rw [parseFrom_frame T (parserTable profile T) (parserTable_subset profile T) hn o ho mode args
    hargs false (OptionStore.init T)]

/-- The internal names of every active table are pairwise distinct. -/
theorem optionTable_names_distinct (cfg : BuildConfig) :
    ((optionTable cfg).map OptionDescriptor.c_name).Nodup := by
  rcases cfg with ⟨_ | _, _ | _⟩ <;> decide

/-- Every active option reads as its declared default from the freshly
initialised store, and that default is well typed. -/
theorem readOption_init (cfg : BuildConfig) :
    ∀ d ∈ optionTable cfg,
      (defaultValue d).isSome = true ∧
      readOption (optionTable cfg) (OptionStore.init (optionTable cfg)) d.c_name =
        defaultValue d ∧
      (d.flag_type ≠ .MONO_OPTION_BOOL_READONLY →
        OptionStore.get (OptionStore.init (optionTable cfg)) (storageName d) =
          defaultValue d) := by
  rcases cfg with ⟨_ | _, _ | _⟩ <;> decide

/-- The single-token runs of the parser on every active option of a table. -/
theorem single_token_runs (cfg : BuildConfig) (profile : ReadonlyProfile) (mode : ErrorMode) :
    ∀ d ∈ optionTable cfg,
      (d.flag_type = .MONO_OPTION_BOOL →
        (parseOptions (optionTable cfg) profile mode ["--" ++ d.cmd_name]).errors = [] ∧
        readOption (optionTable cfg)
          (parseOptions (optionTable cfg) profile mode ["--" ++ d.cmd_name]).store d.c_name =
            some (.bool true) ∧
        (parseOptions (optionTable cfg) profile mode ["--no-" ++ d.cmd_name]).errors = [] ∧
        readOption (optionTable cfg)
          (parseOptions (optionTable cfg) profile mode ["--no-" ++ d.cmd_name]).store d.c_name =
            some (.bool false) ∧
        defaultValue d = some (.bool (decide (d.def_value = .TRUE)))) ∧
      (d.flag_type = .MONO_OPTION_BOOL_READONLY →
        (parseOptions (optionTable cfg) profile mode ["--" ++ d.cmd_name]).errors ≠ [] ∧
        (parseOptions (optionTable cfg) profile mode ["--no-" ++ d.cmd_name]).errors ≠ [] ∧
        defaultValue d = some (.bool (decide (d.def_value = .TRUE)))) := by
  rcases cfg with ⟨_ | _, _ | _⟩ <;> cases profile <;> cases mode <;> decide

/-! ## The claims -/

/-- C1: in each of the four build configurations the command-line names of
the active option declarations are pairwise distinct. -/
theorem cmd_names_nodup (cfg : BuildConfig) :
    ((optionTable cfg).map OptionDescriptor.cmd_name).Nodup := by
  rcases cfg with ⟨_ | _, _ | _⟩ <;> decide

/-- C2: in each of the four build configurations the internal names
(`c_name`, giving `mono_opt_<name>`) of the active declarations are pairwise
distinct, although each of the three jiterpreter switches occurs twice in the
file text. -/
theorem c_names_nodup (cfg : BuildConfig) :
    ((optionTable cfg).map OptionDescriptor.c_name).Nodup ∧
    ∀ n ∈ jiterpreterSwitches, (optionList.map (fun e => e.2.name)).count n = 2 := by
  rcases cfg with ⟨_ | _, _ | _⟩ <;> decide

/-- C3: with `HOST_BROWSER` off the active table is exactly the three
unconditional options, all `MONO_OPTION_BOOL` with default `FALSE`, whatever
`DISABLE_THREADS` is, and no active command-line name begins with
`jiterpreter-`. -/
theorem table_without_host_browser (disableThreads : Bool) :
    optionTable ⟨false, disableThreads⟩ =
      [ ⟨.MONO_OPTION_BOOL, .gboolean, "wasm_exceptions", "wasm-exceptions", .FALSE,
          "Enable codegen for WASM exceptions"⟩,
        ⟨.MONO_OPTION_BOOL, .gboolean, "wasm_gc_safepoints", "wasm-gc-safepoints", .FALSE,
          "Use GC safepoints on WASM"⟩,
        ⟨.MONO_OPTION_BOOL, .gboolean, "aot_lazy_assembly_load", "aot-lazy-assembly-load",
          .FALSE, "Load assemblies referenced by AOT images lazily"⟩ ] ∧
    ((optionTable ⟨false, disableThreads⟩).filter
      (fun d => beginsWith "jiterpreter-" d.cmd_name)) = [] := by
  cases disableThreads <;> decide

/-- C4: an active descriptor has kind `MONO_OPTION_BOOL_READONLY` exactly
when `HOST_BROWSER` is on, `DISABLE_THREADS` is undefined and the option is one
of the three jiterpreter switches; with `HOST_BROWSER` on and `DISABLE_THREADS`
defined each of the three switches is active and every active descriptor of
that name has the mutable kind `MONO_OPTION_BOOL`. -/
theorem readonly_iff_threaded_browser_switch (cfg : BuildConfig) (d : OptionDescriptor)
    (hd : d ∈ optionTable cfg) :
    (d.flag_type = .MONO_OPTION_BOOL_READONLY ↔
      (cfg.HOST_BROWSER = true ∧ cfg.DISABLE_THREADS = false ∧
        d.c_name ∈ jiterpreterSwitches)) ∧
    (∀ n ∈ jiterpreterSwitches,
      (∃ e ∈ optionTable ⟨true, true⟩, e.c_name = n) ∧
      (∀ e ∈ optionTable ⟨true, true⟩, e.c_name = n → e.flag_type = .MONO_OPTION_BOOL)) := by
  have key : ∀ c : BuildConfig, ∀ e ∈ optionTable c,
      (e.flag_type = .MONO_OPTION_BOOL_READONLY ↔
        (c.HOST_BROWSER = true ∧ c.DISABLE_THREADS = false ∧
          e.c_name ∈ jiterpreterSwitches)) := by
    intro c
    rcases c with ⟨_ | _, _ | _⟩ <;> decide
  exact ⟨key cfg d hd, by decide⟩

/-- Witness for C4 at the threaded browser build and its read-only switch
`jiterpreter_traces_enabled`. -/
theorem readonly_iff_threaded_browser_switch_witness :
    ((⟨.MONO_OPTION_BOOL_READONLY, .gboolean, "jiterpreter_traces_enabled",
        "jiterpreter-traces-enabled", .FALSE,
        "JIT interpreter opcode traces into WASM"⟩ : OptionDescriptor) ∈
      optionTable ⟨true, false⟩) ∧
    (MonoOptionType.MONO_OPTION_BOOL_READONLY = .MONO_OPTION_BOOL_READONLY ↔
      ((true = true ∧ false = false ∧
        "jiterpreter_traces_enabled" ∈ jiterpreterSwitches))) :=
  ⟨by decide,
   (readonly_iff_threaded_browser_switch ⟨true, false⟩
      ⟨.MONO_OPTION_BOOL_READONLY, .gboolean, "jiterpreter_traces_enabled",
        "jiterpreter-traces-enabled", .FALSE,
        "JIT interpreter opcode traces into WASM"⟩ (by decide)).1⟩

/-- C5: in every build configuration every active read-only descriptor has
default `FALSE` and reads as `false` after any command-line arguments, in either
read-only profile and error mode; in the browser build with threads the three
jiterpreter switches are read-only with default `FALSE`, and in the browser
build with `DISABLE_THREADS` they are mutable with defaults `FALSE`, `TRUE`,
`TRUE`. -/
theorem readonly_defaults_false (cfg : BuildConfig) (d : OptionDescriptor)
    (hd : d ∈ optionTable cfg) (hro : d.flag_type = .MONO_OPTION_BOOL_READONLY) :
    d.def_value = .FALSE ∧
    (∀ (profile : ReadonlyProfile) (mode : ErrorMode) (args : List String),
      readOption (optionTable cfg) (parseOptions (optionTable cfg) profile mode args).store
        d.c_name = some (.bool false)) ∧
    ((optionTable ⟨true, false⟩).filter (fun d => d.c_name ∈ jiterpreterSwitches)).map
        (fun d => (d.c_name, d.flag_type, d.def_value)) =
      [ ("jiterpreter_traces_enabled", .MONO_OPTION_BOOL_READONLY, .FALSE),
        ("jiterpreter_interp_entry_enabled", .MONO_OPTION_BOOL_READONLY, .FALSE),
        ("jiterpreter_jit_call_enabled", .MONO_OPTION_BOOL_READONLY, .FALSE) ] ∧
    ((optionTable ⟨true, true⟩).filter (fun d => d.c_name ∈ jiterpreterSwitches)).map
        (fun d => (d.c_name, d.flag_type, d.def_value)) =
      [ ("jiterpreter_traces_enabled", .MONO_OPTION_BOOL, .FALSE),
        ("jiterpreter_interp_entry_enabled", .MONO_OPTION_BOOL, .TRUE),
        ("jiterpreter_jit_call_enabled", .MONO_OPTION_BOOL, .TRUE) ] := by
  have key : ∀ c : BuildConfig, ∀ e ∈ optionTable c,
      e.flag_type = .MONO_OPTION_BOOL_READONLY → e.def_value = .FALSE := by
    intro c
    rcases c with ⟨_ | _, _ | _⟩ <;> decide
  have hfalse := key cfg d hd hro
  refine ⟨hfalse, ?_, by decide, by decide⟩
  intro profile mode args
  unfold readOption
  rw [find_by_c_name _ (optionTable_names_distinct cfg) d hd]
  simp only [hro, if_true]
  unfold defaultValue
  rw [hro, hfalse]

/-- Witness for C5 at the threaded browser build and its read-only switch
`jiterpreter_jit_call_enabled`. -/
theorem readonly_defaults_false_witness :
    ((⟨.MONO_OPTION_BOOL_READONLY, .gboolean, "jiterpreter_jit_call_enabled",
        "jiterpreter-jit-call-enabled", .FALSE,
        "JIT specialized WASM do_jit_call trampolines"⟩ : OptionDescriptor) ∈
      optionTable ⟨true, false⟩) ∧
    (DefValue.FALSE = DefValue.FALSE) :=
  ⟨by decide,
   (readonly_defaults_false ⟨true, false⟩
      ⟨.MONO_OPTION_BOOL_READONLY, .gboolean, "jiterpreter_jit_call_enabled",
        "jiterpreter-jit-call-enabled", .FALSE,
        "JIT specialized WASM do_jit_call trampolines"⟩ (by decide) rfl).1⟩

/-- C6: in every build configuration the default of an active descriptor is
of the type its kind requires: `TRUE` or `FALSE` for the two boolean kinds, and
for `MONO_OPTION_INT` an integer expression whose value lies in
`[-2^31, 2^31-1]` and is unchanged by 32-bit reduction; the computed default
`6 * 1024 * 1024` of `jiterpreter_wasm_bytes_limit` is `6291456`. -/
theorem default_matches_kind (cfg : BuildConfig) (d : OptionDescriptor)
    (hd : d ∈ optionTable cfg) :
    ((d.flag_type = .MONO_OPTION_BOOL ∨ d.flag_type = .MONO_OPTION_BOOL_READONLY) →
      (d.def_value = .TRUE ∨ d.def_value = .FALSE)) ∧
    (d.flag_type = .MONO_OPTION_INT →
      ∃ v : Int, d.def_value.intValue = some v ∧ INT_MIN ≤ v ∧ v ≤ INT_MAX ∧
        d.def_value.int32Value = some v) ∧
    (d.c_name = "jiterpreter_wasm_bytes_limit" →
      d.def_value = .mul (.mul (.lit 6) (.lit 1024)) (.lit 1024) ∧
      d.def_value.intValue = some 6291456 ∧ d.def_value.int32Value = some 6291456) := by
  have hb : ∀ c : BuildConfig, ∀ e ∈ optionTable c,
      (e.flag_type = .MONO_OPTION_BOOL ∨ e.flag_type = .MONO_OPTION_BOOL_READONLY) →
        (e.def_value = .TRUE ∨ e.def_value = .FALSE) := by
    intro c
    rcases c with ⟨_ | _, _ | _⟩ <;> decide
  have hi : ∀ c : BuildConfig, ∀ e ∈ optionTable c, e.flag_type = .MONO_OPTION_INT →
      (match e.def_value.intValue with
        | some v => decide (INT_MIN ≤ v ∧ v ≤ INT_MAX) && (e.def_value.int32Value == some v)
        | none => false) = true := by
    intro c
    rcases c with ⟨_ | _, _ | _⟩ <;> decide
  have hw : ∀ c : BuildConfig, ∀ e ∈ optionTable c,
      e.c_name = "jiterpreter_wasm_bytes_limit" →
        e.def_value = .mul (.mul (.lit 6) (.lit 1024)) (.lit 1024) := by
    intro c
    rcases c with ⟨_ | _, _ | _⟩ <;> decide
  refine ⟨hb cfg d hd, fun h => int_default_of_check _ (hi cfg d hd h), fun h => ?_⟩
  have := hw cfg d hd h
  rw [this]
  exact ⟨rfl, by decide, by decide⟩

/-- Witness for C6 at the browser build and `jiterpreter_wasm_bytes_limit`. -/
theorem default_matches_kind_witness :
    ((⟨.MONO_OPTION_INT, .int, "jiterpreter_wasm_bytes_limit",
        "jiterpreter-wasm-bytes-limit", .mul (.mul (.lit 6) (.lit 1024)) (.lit 1024),
        "Disable jiterpreter code generation once this many bytes of WASM have been generated"⟩ :
        OptionDescriptor) ∈ optionTable ⟨true, false⟩) ∧
    (DefValue.mul (.mul (.lit 6) (.lit 1024)) (.lit 1024)).intValue = some 6291456 :=
  ⟨by decide,
   ((default_matches_kind ⟨true, false⟩
      ⟨.MONO_OPTION_INT, .int, "jiterpreter_wasm_bytes_limit",
        "jiterpreter-wasm-bytes-limit", .mul (.mul (.lit 6) (.lit 1024)) (.lit 1024),
        "Disable jiterpreter code generation once this many bytes of WASM have been generated"⟩
      (by decide)).2.2 rfl).2.1⟩

/-- C7: the storage type is determined by the kind alone.  Every wrapper
yields the kind and C type of lines 39-42, which is the C type the header
documents for that kind; hence two active descriptors of one kind have one
storage type, and the kind of an active descriptor is one of the four. -/
theorem ctype_determined_by_kind :
    (∀ d : OptionDecl,
      (d.define = .DEFINE_BOOL →
        (expand d).flag_type = .MONO_OPTION_BOOL ∧ (expand d).ctype = .gboolean) ∧
      (d.define = .DEFINE_BOOL_READONLY →
        (expand d).flag_type = .MONO_OPTION_BOOL_READONLY ∧ (expand d).ctype = .gboolean) ∧
      (d.define = .DEFINE_INT →
        (expand d).flag_type = .MONO_OPTION_INT ∧ (expand d).ctype = .int) ∧
      (d.define = .DEFINE_STRING →
        (expand d).flag_type = .MONO_OPTION_STRING ∧ (expand d).ctype = .char_ptr) ∧
      (expand d).ctype = documentedCType (expand d).flag_type) ∧
    (∀ cfg : BuildConfig, ∀ a ∈ optionTable cfg, ∀ b ∈ optionTable cfg,
      a.flag_type = b.flag_type → a.ctype = b.ctype) ∧
    (∀ cfg : BuildConfig, ∀ a ∈ optionTable cfg,
      a.flag_type ∈ [MonoOptionType.MONO_OPTION_BOOL, .MONO_OPTION_BOOL_READONLY,
        .MONO_OPTION_INT, .MONO_OPTION_STRING]) := by
  have hexp : ∀ d : OptionDecl, (expand d).ctype = documentedCType (expand d).flag_type := by
    intro d
    rcases d with ⟨k, n, c, v, m⟩
    cases k <;> rfl
  have htab : ∀ cfg : BuildConfig, ∀ a ∈ optionTable cfg,
      a.ctype = documentedCType a.flag_type := by
    intro cfg a ha
    obtain ⟨d, -, rfl⟩ := List.mem_map.1 ha
    exact hexp d
  refine ⟨fun d => ⟨?_, ?_, ?_, ?_, hexp d⟩, ?_, ?_⟩
  · intro h; simp [expand, h]
  · intro h; simp [expand, h]
  · intro h; simp [expand, h]
  · intro h; simp [expand, h]
  · intro cfg a ha b hb hab
    rw [htab cfg a ha, htab cfg b hb, hab]
  · intro cfg a _
    cases a.flag_type <;> simp

/-- C8: in every build configuration the storage of every active option
holds the option's declared default as long as no command-line token naming the
option has been parsed: at process start and after parsing any arguments that do
not name it; looking the value up by name finds that very descriptor; in a
browser build `jiterpreter_minimum_trace_length` is 10,
`jiterpreter_minimum_trace_hit_count` is 5000 and
`jiterpreter_wasm_bytes_limit` is 6291456. -/
theorem default_until_parsed (cfg : BuildConfig) (d : OptionDescriptor)
    (hd : d ∈ optionTable cfg) :
    (optionTable cfg).find? (fun e => e.c_name = d.c_name) = some d ∧
    (defaultValue d).isSome = true ∧
    readOption (optionTable cfg) (OptionStore.init (optionTable cfg)) d.c_name =
      defaultValue d ∧
    (d.flag_type ≠ .MONO_OPTION_BOOL_READONLY →
      OptionStore.get (OptionStore.init (optionTable cfg)) (storageName d) = defaultValue d) ∧
    (∀ (profile : ReadonlyProfile) (mode : ErrorMode) (args : List String),
      (∀ tok ∈ args, mentions d tok = false) →
      readOption (optionTable cfg) (parseOptions (optionTable cfg) profile mode args).store
        d.c_name = defaultValue d) ∧
    (∀ disableThreads : Bool,
      readOption (optionTable ⟨true, disableThreads⟩)
          (OptionStore.init (optionTable ⟨true, disableThreads⟩))
          "jiterpreter_minimum_trace_length" = some (.int 10) ∧
      readOption (optionTable ⟨true, disableThreads⟩)
          (OptionStore.init (optionTable ⟨true, disableThreads⟩))
          "jiterpreter_minimum_trace_hit_count" = some (.int 5000) ∧
      readOption (optionTable ⟨true, disableThreads⟩)
          (OptionStore.init (optionTable ⟨true, disableThreads⟩))
          "jiterpreter_wasm_bytes_limit" = some (.int 6291456)) := by
  have hn := optionTable_names_distinct cfg
  obtain ⟨h1, h2, h3⟩ := readOption_init cfg d hd
  refine ⟨find_by_c_name _ hn d hd, h1, h2, h3, ?_, ?_⟩
  · intro profile mode args hargs
    rw [readOption_frame _ hn d hd profile mode args, h2]
    intro tok ht hm
    rw [hargs tok ht] at hm
    exact Bool.noConfusion hm.1
  · intro disableThreads
    cases disableThreads <;> decide

/-- Witness for C8 at the browser build with threads and
`jiterpreter_minimum_trace_length`. -/
theorem default_until_parsed_witness :
    ((⟨.MONO_OPTION_INT, .int, "jiterpreter_minimum_trace_length",
        "jiterpreter-minimum-trace-length", .lit 10,
        "Reject traces shorter than this number of meaningful opcodes"⟩ : OptionDescriptor) ∈
      optionTable ⟨true, false⟩) ∧
    readOption (optionTable ⟨true, false⟩) (OptionStore.init (optionTable ⟨true, false⟩))
      "jiterpreter_minimum_trace_length" =
      defaultValue ⟨.MONO_OPTION_INT, .int, "jiterpreter_minimum_trace_length",
        "jiterpreter-minimum-trace-length", .lit 10,
        "Reject traces shorter than this number of meaningful opcodes"⟩ :=
  ⟨by decide,
   (default_until_parsed ⟨true, false⟩
      ⟨.MONO_OPTION_INT, .int, "jiterpreter_minimum_trace_length",
        "jiterpreter-minimum-trace-length", .lit 10,
        "Reject traces shorter than this number of meaningful opcodes"⟩ (by decide)).2.2.1⟩

/-- C9: in every build configuration every active command-line name is
kebab-case: non-empty, made of lowercase ASCII letters and hyphens only, with
no hyphen first or last, no two hyphens in a row, and no underscore, `=` or
whitespace. -/
theorem cmd_names_kebab_case (cfg : BuildConfig) (d : OptionDescriptor)
    (hd : d ∈ optionTable cfg) :
    d.cmd_name.toList ≠ [] ∧
    (∀ c ∈ d.cmd_name.toList, ('a' ≤ c ∧ c ≤ 'z') ∨ c = '-') ∧
    d.cmd_name.toList.head? ≠ some '-' ∧
    d.cmd_name.toList.getLast? ≠ some '-' ∧
    hasAdjacentHyphens d.cmd_name.toList = false ∧
    (∀ c ∈ d.cmd_name.toList, c ≠ '_' ∧ c ≠ '=' ∧ c.isWhitespace = false) := by
  have key : ∀ c : BuildConfig, ∀ e ∈ optionTable c,
      e.cmd_name.toList ≠ [] ∧
      (∀ c ∈ e.cmd_name.toList, ('a' ≤ c ∧ c ≤ 'z') ∨ c = '-') ∧
      e.cmd_name.toList.head? ≠ some '-' ∧
      e.cmd_name.toList.getLast? ≠ some '-' ∧
      hasAdjacentHyphens e.cmd_name.toList = false ∧
      (∀ c ∈ e.cmd_name.toList, c ≠ '_' ∧ c ≠ '=' ∧ c.isWhitespace = false) := by
    intro c
    rcases c with ⟨_ | _, _ | _⟩ <;> decide
  exact key cfg d hd

/-- Witness for C9 at the plain build and `wasm-exceptions`. -/
theorem cmd_names_kebab_case_witness :
    ((⟨.MONO_OPTION_BOOL, .gboolean, "wasm_exceptions", "wasm-exceptions", .FALSE,
        "Enable codegen for WASM exceptions"⟩ : OptionDescriptor) ∈
      optionTable ⟨false, false⟩) ∧
    "wasm-exceptions".toList ≠ [] ∧
    hasAdjacentHyphens "wasm-exceptions".toList = false :=
  ⟨by decide,
   (cmd_names_kebab_case ⟨false, false⟩
      ⟨.MONO_OPTION_BOOL, .gboolean, "wasm_exceptions", "wasm-exceptions", .FALSE,
        "Enable codegen for WASM exceptions"⟩ (by decide)).1,
   (cmd_names_kebab_case ⟨false, false⟩
      ⟨.MONO_OPTION_BOOL, .gboolean, "wasm_exceptions", "wasm-exceptions", .FALSE,
        "Enable codegen for WASM exceptions"⟩ (by decide)).2.2.2.2.1⟩

/-- C10 (amended): for every active option of the mutable kind
`MONO_OPTION_BOOL`, parsing the single token `--<cmd>` sets it to true, parsing
`--no-<cmd>` sets it to false, and parsing arguments that contain neither token
leaves it at its declared default; for an active read-only boolean option both
tokens are refused with an error and the option reads as its default after any
arguments. -/
theorem bool_flag_sets_mutable_option (cfg : BuildConfig) (profile : ReadonlyProfile)
    (mode : ErrorMode) (d : OptionDescriptor) (hd : d ∈ optionTable cfg) :
    (d.flag_type = .MONO_OPTION_BOOL →
      ((parseOptions (optionTable cfg) profile mode ["--" ++ d.cmd_name]).errors = [] ∧
        readOption (optionTable cfg)
          (parseOptions (optionTable cfg) profile mode ["--" ++ d.cmd_name]).store d.c_name =
            some (.bool true)) ∧
      ((parseOptions (optionTable cfg) profile mode ["--no-" ++ d.cmd_name]).errors = [] ∧
        readOption (optionTable cfg)
          (parseOptions (optionTable cfg) profile mode ["--no-" ++ d.cmd_name]).store d.c_name =
            some (.bool false)) ∧
      (∀ args : List String, "--" ++ d.cmd_name ∉ args → "--no-" ++ d.cmd_name ∉ args →
        readOption (optionTable cfg) (parseOptions (optionTable cfg) profile mode args).store
          d.c_name = defaultValue d) ∧
      defaultValue d = some (.bool (decide (d.def_value = .TRUE)))) ∧
    (d.flag_type = .MONO_OPTION_BOOL_READONLY →
      (parseOptions (optionTable cfg) profile mode ["--" ++ d.cmd_name]).errors ≠ [] ∧
      (parseOptions (optionTable cfg) profile mode ["--no-" ++ d.cmd_name]).errors ≠ [] ∧
      (∀ args : List String,
        readOption (optionTable cfg) (parseOptions (optionTable cfg) profile mode args).store
          d.c_name = defaultValue d) ∧
      defaultValue d = some (.bool (decide (d.def_value = .TRUE)))) := by
  have hn := optionTable_names_distinct cfg
  obtain ⟨hb, hr⟩ := single_token_runs cfg profile mode d hd
  obtain ⟨-, hinit, -⟩ := readOption_init cfg d hd
  constructor
  · intro hk
    obtain ⟨e1, v1, e2, v2, hdef⟩ := hb hk
    refine ⟨⟨e1, v1⟩, ⟨e2, v2⟩, ?_, hdef⟩
    intro args h1 h2
    rw [readOption_frame _ hn d hd profile mode args, hinit]
    intro tok ht hm
    rcases hm.2 hk with h | h
    · exact h1 (h ▸ ht)
    · exact h2 (h ▸ ht)
  · intro hk
    obtain ⟨e1, e2, hdef⟩ := hr hk
    refine ⟨e1, e2, ?_, hdef⟩
    intro args
    unfold readOption
    rw [find_by_c_name _ hn d hd]
    simp only [hk, if_true]

/-- Witness for C10 (amended) at the plain build, the frozen profile,
fail-fast mode and `wasm-exceptions`. -/
theorem bool_flag_sets_mutable_option_witness :
    ((⟨.MONO_OPTION_BOOL, .gboolean, "wasm_exceptions", "wasm-exceptions", .FALSE,
        "Enable codegen for WASM exceptions"⟩ : OptionDescriptor) ∈
      optionTable ⟨false, false⟩) ∧
    readOption (optionTable ⟨false, false⟩)
      (parseOptions (optionTable ⟨false, false⟩) .frozen .failFast
        ["--" ++ "wasm-exceptions"]).store "wasm_exceptions" = some (.bool true) :=
  ⟨by decide,
   ((bool_flag_sets_mutable_option ⟨false, false⟩ .frozen .failFast
      ⟨.MONO_OPTION_BOOL, .gboolean, "wasm_exceptions", "wasm-exceptions", .FALSE,
        "Enable codegen for WASM exceptions"⟩ (by decide)).1 rfl).1.2⟩

/-- C10 fails as stated: in the browser build with threads the boolean option
`jiterpreter_traces_enabled` is active, and parsing the single token
`--jiterpreter-traces-enabled` does not set it to true in either read-only
profile; it still reads `false` and the token is reported as an error. -/
theorem readonly_bool_flag_not_set :
    ((⟨.MONO_OPTION_BOOL_READONLY, .gboolean, "jiterpreter_traces_enabled",
        "jiterpreter-traces-enabled", .FALSE,
        "JIT interpreter opcode traces into WASM"⟩ : OptionDescriptor) ∈
      optionTable ⟨true, false⟩) ∧
    readOption (optionTable ⟨true, false⟩)
      (parseOptions (optionTable ⟨true, false⟩) .runtimeFixed .failFast
        ["--jiterpreter-traces-enabled"]).store "jiterpreter_traces_enabled" ≠
      some (.bool true) ∧
    readOption (optionTable ⟨true, false⟩)
      (parseOptions (optionTable ⟨true, false⟩) .runtimeFixed .failFast
        ["--jiterpreter-traces-enabled"]).store "jiterpreter_traces_enabled" =
      some (.bool false) ∧
    (parseOptions (optionTable ⟨true, false⟩) .runtimeFixed .failFast
        ["--jiterpreter-traces-enabled"]).errors =
      [.ReadonlyViolation "jiterpreter-traces-enabled"] ∧
    readOption (optionTable ⟨true, false⟩)
      (parseOptions (optionTable ⟨true, false⟩) .frozen .failFast
        ["--jiterpreter-traces-enabled"]).store "jiterpreter_traces_enabled" =
      some (.bool false) ∧
    (parseOptions (optionTable ⟨true, false⟩) .frozen .failFast
        ["--jiterpreter-traces-enabled"]).errors =
      [.UnrecognizedFlag "--jiterpreter-traces-enabled"] := by
  decide

/-- C11: when the including file defines only `DEFINE_OPTION_FULL`, every
active declaration, read-only or not, becomes exactly one `DEFINE_OPTION_FULL`
invocation with the six arguments of its wrapper; so whatever
`DEFINE_OPTION_FULL` generates, the generated list has one entry per active
declaration in declaration order (3 without `HOST_BROWSER`, 23 with it) and is
the list obtained when `DEFINE_OPTION_READONLY` is defined like
`DEFINE_OPTION_FULL`; a read-only entry is told apart by its kind
`MONO_OPTION_BOOL_READONLY` alone. -/
theorem fallback_materializes_every_declaration :
    (∀ cfg : BuildConfig,
      invocations false cfg =
        (activeDecls cfg).map (fun d => ⟨.DEFINE_OPTION_FULL, expand d⟩)) ∧
    (∀ d : OptionDecl,
      (applyFallback false (expandWrapper d)).args = (expandWrapper d).args ∧
      (applyFallback false (expandWrapper d)).emitter = .DEFINE_OPTION_FULL ∧
      (d.define = .DEFINE_BOOL_READONLY ↔
        (expand d).flag_type = .MONO_OPTION_BOOL_READONLY)) ∧
    (∀ (α : Type) (full : OptionDescriptor → α) (cfg : BuildConfig),
      includeHeader ⟨some full, none⟩ cfg = some ((activeDecls cfg).map (fun d => full (expand d))) ∧
      includeHeader ⟨some full, none⟩ cfg = includeHeader ⟨some full, some full⟩ cfg) ∧
    (∀ cfg : BuildConfig,
      includeHeader ⟨some id, none⟩ cfg = some (optionTable cfg) ∧
      (optionTable cfg).length = (activeDecls cfg).length) ∧
    (∀ disableThreads : Bool,
      (optionTable ⟨false, disableThreads⟩).length = 3 ∧
      (optionTable ⟨true, disableThreads⟩).length = 23) := by
  have hfb : ∀ d : OptionDecl,
      applyFallback false (expandWrapper d) = ⟨.DEFINE_OPTION_FULL, expand d⟩ := by
    intro d
    rcases d with ⟨k, n, c, v, m⟩
    cases k <;> rfl
  have hinc : ∀ (α : Type) (full : OptionDescriptor → α) (cfg : BuildConfig),
      includeHeader ⟨some full, none⟩ cfg =
        some ((activeDecls cfg).map (fun d => full (expand d))) := by
    intro α full cfg
    simp only [includeHeader, invocations, Option.isSome_none, List.map_map]
    congr 1
    apply List.map_congr_left
    intro d _
    simp only [Function.comp_apply, hfb]
  refine ⟨?_, ?_, ?_, ?_, ?_⟩
  · intro cfg
    exact List.map_congr_left (fun d _ => hfb d)
  · intro d
    refine ⟨by rw [hfb]; rfl, by rw [hfb], ?_⟩
    rcases d with ⟨k, n, c, v, m⟩
    cases k <;> simp [expand]
  · intro α full cfg
    refine ⟨hinc α full cfg, ?_⟩
    rw [hinc]
    simp only [includeHeader, invocations, Option.isSome_some, List.map_map]
    congr 1
    apply List.map_congr_left
    intro d _
    rcases d with ⟨k, n, c, v, m⟩
    cases k <;> rfl
  · intro cfg
    refine ⟨?_, by simp [optionTable]⟩
    rw [hinc]
    rfl
  · intro disableThreads
    cases disableThreads <;> decide

/-- C12: in every build configuration no active command-line name begins
with `no-`; hence for two active options `a` and `b` the negated spelling
`no-<cmd a>` is never the command-line name of `b`, and no token is both
`--no-<cmd a>` and `--<cmd b>`. -/
theorem no_cmd_name_is_negation (cfg : BuildConfig) (a b : OptionDescriptor)
    (ha : a ∈ optionTable cfg) (hb : b ∈ optionTable cfg) :
    beginsWith "no-" a.cmd_name = false ∧
    "no-" ++ a.cmd_name ≠ b.cmd_name ∧
    (∀ tok : String, ¬ (tok = "--no-" ++ a.cmd_name ∧ tok = "--" ++ b.cmd_name)) := by
  have h1 : ∀ c : BuildConfig, ∀ e ∈ optionTable c, beginsWith "no-" e.cmd_name = false := by
    intro c
    rcases c with ⟨_ | _, _ | _⟩ <;> decide
  have h2 : ∀ c : BuildConfig, ∀ x ∈ optionTable c, ∀ y ∈ optionTable c,
      "no-" ++ x.cmd_name ≠ y.cmd_name ∧ "--no-" ++ x.cmd_name ≠ "--" ++ y.cmd_name := by
    intro c
    rcases c with ⟨_ | _, _ | _⟩ <;> decide
  refine ⟨h1 cfg a ha, (h2 cfg a ha b hb).1, ?_⟩
  rintro tok ⟨e1, e2⟩
  exact (h2 cfg a ha b hb).2 (e1.symm.trans e2)

/-- Witness for C12 at the plain build with `wasm-exceptions` and
`wasm-gc-safepoints`. -/
theorem no_cmd_name_is_negation_witness :
    ((⟨.MONO_OPTION_BOOL, .gboolean, "wasm_exceptions", "wasm-exceptions", .FALSE,
        "Enable codegen for WASM exceptions"⟩ : OptionDescriptor) ∈
      optionTable ⟨false, false⟩) ∧
    ((⟨.MONO_OPTION_BOOL, .gboolean, "wasm_gc_safepoints", "wasm-gc-safepoints", .FALSE,
        "Use GC safepoints on WASM"⟩ : OptionDescriptor) ∈ optionTable ⟨false, false⟩) ∧
    beginsWith "no-" "wasm-exceptions" = false ∧
    "no-" ++ "wasm-exceptions" ≠ "wasm-gc-safepoints" :=
  ⟨by decide, by decide,
   (no_cmd_name_is_negation ⟨false, false⟩
      ⟨.MONO_OPTION_BOOL, .gboolean, "wasm_exceptions", "wasm-exceptions", .FALSE,
        "Enable codegen for WASM exceptions"⟩
      ⟨.MONO_OPTION_BOOL, .gboolean, "wasm_gc_safepoints", "wasm-gc-safepoints", .FALSE,
        "Use GC safepoints on WASM"⟩ (by decide) (by decide)).1,
   (no_cmd_name_is_negation ⟨false, false⟩
      ⟨.MONO_OPTION_BOOL, .gboolean, "wasm_exceptions", "wasm-exceptions", .FALSE,
        "Enable codegen for WASM exceptions"⟩
      ⟨.MONO_OPTION_BOOL, .gboolean, "wasm_gc_safepoints", "wasm-gc-safepoints", .FALSE,
        "Use GC safepoints on WASM"⟩ (by decide) (by decide)).2.1⟩

/-- C13: with `HOST_BROWSER` on, the two threading modes give the same
ordered sequence of (name, command-line name, storage type, description); entry
by entry the two tables agree except on the three jiterpreter switches, which
are `MONO_OPTION_BOOL` with defaults `FALSE`, `TRUE`, `TRUE` under
`DISABLE_THREADS` and `MONO_OPTION_BOOL_READONLY` with default `FALSE` without
it; and the table built with `HOST_BROWSER` off is an initial segment of the
table built with it on, in either threading mode. -/
theorem threading_mode_changes_kind_and_defaults_only :
    (optionTable ⟨true, true⟩).map (fun d => (d.c_name, d.cmd_name, d.ctype, d.comment)) =
      (optionTable ⟨true, false⟩).map (fun d => (d.c_name, d.cmd_name, d.ctype, d.comment)) ∧
    (optionTable ⟨true, true⟩).length = (optionTable ⟨true, false⟩).length ∧
    (∀ p ∈ List.zip (optionTable ⟨true, true⟩) (optionTable ⟨true, false⟩),
      (p.1.c_name ∉ jiterpreterSwitches → p.1 = p.2) ∧
      (p.1.c_name ∈ jiterpreterSwitches →
        p.1.flag_type = .MONO_OPTION_BOOL ∧ p.2.flag_type = .MONO_OPTION_BOOL_READONLY)) ∧
    ((List.zip (optionTable ⟨true, true⟩) (optionTable ⟨true, false⟩)).filter
        (fun p => decide (p.1 ≠ p.2))).map
        (fun p => (p.1.c_name, p.1.flag_type, p.1.def_value, p.2.flag_type, p.2.def_value)) =
      [ ("jiterpreter_traces_enabled", .MONO_OPTION_BOOL, .FALSE,
          .MONO_OPTION_BOOL_READONLY, .FALSE),
        ("jiterpreter_interp_entry_enabled", .MONO_OPTION_BOOL, .TRUE,
          .MONO_OPTION_BOOL_READONLY, .FALSE),
        ("jiterpreter_jit_call_enabled", .MONO_OPTION_BOOL, .TRUE,
          .MONO_OPTION_BOOL_READONLY, .FALSE) ] ∧
    (∀ dtOff dtOn : Bool, optionTable ⟨false, dtOff⟩ <+: optionTable ⟨true, dtOn⟩) := by
  refine ⟨by decide, by decide, by decide, by decide, ?_⟩
  intro dtOff dtOn
  cases dtOff <;> cases dtOn <;> decide

/-- C14: no declaration of the header uses `DEFINE_STRING`, so in every build
configuration no active descriptor has kind `MONO_OPTION_STRING`: each is
`MONO_OPTION_BOOL`, `MONO_OPTION_BOOL_READONLY` or `MONO_OPTION_INT`, with 7
integer and 16 boolean descriptors when `HOST_BROWSER` is on and 0 integer and 3
`MONO_OPTION_BOOL` descriptors when it is off; any statement about the active
String options of a table therefore holds vacuously. -/
theorem no_string_options :
    (∀ e ∈ optionList, e.2.define ≠ .DEFINE_STRING) ∧
    (∀ cfg : BuildConfig, ∀ d ∈ optionTable cfg,
      d.flag_type ≠ .MONO_OPTION_STRING ∧
      (d.flag_type = .MONO_OPTION_BOOL ∨ d.flag_type = .MONO_OPTION_BOOL_READONLY ∨
        d.flag_type = .MONO_OPTION_INT)) ∧
    (∀ disableThreads : Bool,
      (optionTable ⟨true, disableThreads⟩).countP
          (fun d => d.flag_type = .MONO_OPTION_INT) = 7 ∧
      (optionTable ⟨true, disableThreads⟩).countP
          (fun d => d.flag_type = .MONO_OPTION_BOOL ∨
            d.flag_type = .MONO_OPTION_BOOL_READONLY) = 16 ∧
      (optionTable ⟨false, disableThreads⟩).countP
          (fun d => d.flag_type = .MONO_OPTION_INT) = 0 ∧
      (optionTable ⟨false, disableThreads⟩).countP
          (fun d => d.flag_type = .MONO_OPTION_BOOL) = 3 ∧
      (optionTable ⟨false, disableThreads⟩).length = 3) ∧
    (∀ (cfg : BuildConfig) (P : OptionDescriptor → Prop), ∀ d ∈ optionTable cfg,
      d.flag_type = .MONO_OPTION_STRING → P d) := by
  have hk : ∀ cfg : BuildConfig, ∀ d ∈ optionTable cfg,
      d.flag_type ≠ .MONO_OPTION_STRING ∧
      (d.flag_type = .MONO_OPTION_BOOL ∨ d.flag_type = .MONO_OPTION_BOOL_READONLY ∨
        d.flag_type = .MONO_OPTION_INT) := by
    intro cfg
    rcases cfg with ⟨_ | _, _ | _⟩ <;> decide
  refine ⟨by decide, hk, ?_, ?_⟩
  · intro disableThreads
    cases disableThreads <;> decide
  · intro cfg P d hd hs
    exact absurd hs (hk cfg d hd).1

end MonoOptions
